import Mathlib

/-!
Verification of the Nthcreation risk-analysis and usage-governance engine
(apps/api/src/index.ts, apps/api/src/middleware/security.ts, and the
analytics middleware) against its natural-language specification.

Shallow embedding conventions:
* TypeScript strings are Lean `String`s; the engine only ever lowercases and
  substring-tests ASCII text, so `Char.toLower` matches `toLowerCase` on all
  inputs appearing here.
* JS numbers that are used as integers (counts, millisecond timestamps,
  status codes) are `Nat`; numbers used as fractional quantities
  (confidences, durations, averages) are `Rat` — every arithmetic operation
  performed on them by the source (comparison, min, max, +, /) is exact on
  rationals.  One deliberate divergence is noted at `logResponse`.
* `crypto.randomUUID()` identifiers are omitted from the `Finding` model:
  the spec itself states results are deterministic "modulo freshly generated
  Finding identifiers", and no claim mentions ids.
* JS `Set`/`Map` are modelled as insertion-ordered lists (no duplicate keys).
-/

set_option maxRecDepth 100000

namespace Nthcreation

-- ===========================================================================
-- Core data model (index.ts: type definitions)
-- ===========================================================================

inductive Severity
  | HIGH
  | MEDIUM
  | LOW
deriving DecidableEq, Repr

inductive Category
  | TRUST
  | CONTROL
  | TRANSPARENCY
  | RECOVERY
  | MEMORY
deriving DecidableEq, Repr

structure Step where
  id : String := ""
  text : String
deriving DecidableEq, Repr

structure Flow where
  id : String := ""
  goal : String := ""
  steps : List Step
  createdAt : String := ""
  updatedAt : String := ""
  source : Option String := none
  sourceUrl : Option String := none
deriving DecidableEq, Repr

structure Finding where
  severity : Severity
  category : Category
  title : String
  description : String
  evidence : List String
  recommendation : String
  confidence : Rat
  principleId : Option String := none
deriving DecidableEq, Repr

-- ===========================================================================
-- String utilities (index.ts: includesAny)
-- ===========================================================================

/-- JS `String.prototype.includes` on the character-list view of a string:
`containsSeq p l` is true when `p` occurs as a contiguous subsequence of `l`. -/
def containsSeq (p : List Char) : List Char → Bool
  | [] => p.isEmpty
  | c :: t => p.isPrefixOf (c :: t) || containsSeq p t

/-- index.ts `includesAny`: lowercase the text, then test whether any search
term occurs as a substring.  (`text.toLowerCase()` is per-character ASCII
lowercasing on all text this engine handles.) -/
def includesAny (text : String) (terms : List String) : Bool :=
  let normalized := text.data.map Char.toLower
  terms.any (fun term => containsSeq term.data normalized)

-- ===========================================================================
-- Rule evaluator keyword sets (index.ts: runRules, rules 1-8)
-- ===========================================================================

def failureTerms : List String :=
  ["error", "fail", "retry", "fallback", "recover", "undo"]

def approvalTerms : List String :=
  ["approve", "confirm", "review", "check", "verify", "preview", "user approves"]

def autoActTerms : List String :=
  ["automatically", "auto", "ai executes", "ai performs", "ai does",
   "system sends", "publish"]

def explainTerms : List String :=
  ["why", "because", "reason", "explains", "explanation", "shows rationale"]

def progressTerms : List String :=
  ["loading", "progress", "processing", "working", "status", "indicator"]

def memoryTerms : List String :=
  ["remember", "recall", "previous", "history", "context", "saved"]

def undoTerms : List String :=
  ["undo", "edit", "modify", "change", "revert", "cancel"]

def trustTerms : List String :=
  ["verified", "secure", "trust", "credential", "badge", "certification"]

def confidenceTerms : List String :=
  ["confidence", "certainty", "sure", "might", "may", "uncertain", "probability"]

/-- The union of every keyword list consulted by `runRules` (nine lists: the
eight checks, where check 2 consults both an approval list and an
autonomous-action list). -/
def allRuleTerms : List String :=
  failureTerms ++ approvalTerms ++ autoActTerms ++ explainTerms ++
  progressTerms ++ memoryTerms ++ undoTerms ++ trustTerms ++ confidenceTerms

-- ===========================================================================
-- Rule evaluator step predicates (index.ts: runRules, the has* constants)
-- ===========================================================================

def hasFailure (flow : Flow) : Bool :=
  flow.steps.any (fun s => includesAny s.text failureTerms)

def hasApproval (flow : Flow) : Bool :=
  flow.steps.any (fun s => includesAny s.text approvalTerms)

def hasAutoAct (flow : Flow) : Bool :=
  flow.steps.any (fun s => includesAny s.text autoActTerms)

def hasExplain (flow : Flow) : Bool :=
  flow.steps.any (fun s => includesAny s.text explainTerms)

def hasProgress (flow : Flow) : Bool :=
  flow.steps.any (fun s => includesAny s.text progressTerms)

def hasMemory (flow : Flow) : Bool :=
  flow.steps.any (fun s => includesAny s.text memoryTerms)

def hasUndo (flow : Flow) : Bool :=
  flow.steps.any (fun s => includesAny s.text undoTerms)

def hasTrust (flow : Flow) : Bool :=
  flow.steps.any (fun s => includesAny s.text trustTerms)

def hasConfidence (flow : Flow) : Bool :=
  flow.steps.any (fun s => includesAny s.text confidenceTerms)

-- ===========================================================================
-- The eight rule findings (index.ts: runRules, the pushed literals)
-- ===========================================================================

def ruleFinding1 : Finding :=
  { severity := .HIGH
    category := .RECOVERY
    title := "No error handling or recovery path defined"
    description := "Your flow doesn\x27t plan for failure. When AI makes mistakes or systems break, users get stuck with no way forward. This creates anxiety, support tickets, and abandoned flows. Every AI feature needs graceful degradation."
    evidence := ["No error states mentioned", "No retry or fallback options",
                 "No recovery path if AI fails"]
    recommendation := "Add error handling at each AI step:\n\n1. Show clear error messages\n2. Offer retry with \x27Try again\x27 button\n3. Provide manual alternative\n4. Preserve user input during failures\n5. Explain what went wrong and why"
    principleId := some "principle_graceful_failure"
    confidence := mkRat 9 10 }

def ruleFinding2 : Finding :=
  { severity := .HIGH
    category := .CONTROL
    title := "AI takes actions without user approval"
    description := "Your flow lets AI make decisions and take actions without asking permission. This feels like loss of control and breaks trust."
    evidence := ["AI executes actions automatically", "No approval or confirmation step",
                 "User cannot review before action"]
    recommendation := "Add approval gates before AI actions:\n\n1. Preview what will happen\n2. Show \x27Approve\x27 and \x27Cancel\x27 buttons\n3. Allow editing before execution\n4. Make approval explicit, not assumed"
    principleId := some "principle_human_in_loop"
    confidence := mkRat 95 100 }

def ruleFinding3 : Finding :=
  { severity := .MEDIUM
    category := .TRANSPARENCY
    title := "AI decisions lack transparency"
    description := "Your flow doesn\x27t explain WHY the AI makes decisions. Users can\x27t trust what they don\x27t understand."
    evidence := ["No explanations of AI reasoning",
                 "Missing \x27what happens next\x27 information",
                 "Users left guessing why actions were taken"]
    recommendation := "Add transparency:\n\n1. Explain WHY: \x27I suggested this because...\x27\n2. Show confidence: \x2785% confident\x27\n3. Admit limitations: \x27I\x27m not sure about X\x27\n4. Show reasoning factors"
    principleId := some "principle_explainability"
    confidence := mkRat 85 100 }

def ruleFinding4 : Finding :=
  { severity := .MEDIUM
    category := .TRANSPARENCY
    title := "Missing real-time feedback on system status"
    description := "Multi-step process without showing users what\x27s happening. Silence creates anxiety."
    evidence := ["No loading or progress indicators", "No intermediate feedback",
                 "Users don\x27t know if system is working"]
    recommendation := "Add progressive feedback:\n\n1. Show spinners or progress bars\n2. Status messages: \x27Analyzing data...\x27\n3. Time estimates: \x27Usually takes 30 seconds\x27\n4. Step indicators: \x27Step 2 of 5\x27"
    principleId := some "principle_feedback_visibility"
    confidence := mkRat 8 10 }

def ruleFinding5 : Finding :=
  { severity := .MEDIUM
    category := .MEMORY
    title := "System doesn\x27t remember user context"
    description := "Making users repeat information they\x27ve already provided signals the system isn\x27t listening."
    evidence := ["No mention of remembering context",
                 "No reference to previous interactions", "Likely repeats questions"]
    recommendation := "Add contextual memory:\n\n1. Remember user preferences\n2. Reference previous inputs\n3. Auto-fill based on history\n4. Show \x27We remember from last time\x27"
    principleId := some "principle_context_awareness"
    confidence := mkRat 75 100 }

def ruleFinding6 : Finding :=
  { severity := .MEDIUM
    category := .CONTROL
    title := "No way to undo or edit AI actions"
    description := "Irreversible AI actions create fear. Users need escape hatches."
    evidence := ["No undo or edit capability", "AI actions appear permanent",
                 "No way to fix AI mistakes"]
    recommendation := "Add reversibility:\n\n1. Undo button after AI actions\n2. Edit capability before finalizing\n3. Version history\n4. \x27Undo\x27 window (e.g., 30 seconds)"
    principleId := some "principle_undo_redo"
    confidence := mkRat 85 100 }

def ruleFinding7 : Finding :=
  { severity := .LOW
    category := .TRUST
    title := "Missing trust and credibility signals"
    description := "No signals to help users trust AI decisions. Trust must be earned."
    evidence := ["No verification or credibility indicators", "No trust-building elements",
                 "Missing security or authority signals"]
    recommendation := "Add trust signals:\n\n1. Verification badges\n2. Data source transparency\n3. Security indicators\n4. Expert endorsements\n5. Success metrics"
    principleId := some "principle_consent_clarity"
    confidence := mkRat 7 10 }

def ruleFinding8 : Finding :=
  { severity := .LOW
    category := .TRUST
    title := "AI doesn\x27t communicate confidence levels"
    description := "All recommendations presented with same certainty, whether 95% sure or guessing."
    evidence := ["No confidence scores shown", "Missing uncertainty indicators",
                 "Doesn\x27t flag low-confidence outputs"]
    recommendation := "Add trust calibration:\n\n1. Confidence scores: \x2792% confident\x27\n2. Uncertainty flags: \x27Not sure about this\x27\n3. Verification prompts\n4. Source transparency"
    principleId := some "principle_trust_calibration"
    confidence := mkRat 8 10 }

-- ===========================================================================
-- Rule evaluator (index.ts: runRules)
-- ===========================================================================

/-- index.ts `runRules`: the eight checks run in order, each pushing its
finding exactly when its guard holds; this is the in-order concatenation of
the conditional singletons. -/
def runRules (flow : Flow) : List Finding :=
  (if !hasFailure flow then [ruleFinding1] else [])
  ++ (if !hasApproval flow && hasAutoAct flow then [ruleFinding2] else [])
  ++ (if !hasExplain flow then [ruleFinding3] else [])
  ++ (if !hasProgress flow && flow.steps.length > 3 then [ruleFinding4] else [])
  ++ (if !hasMemory flow && flow.steps.length > 2 then [ruleFinding5] else [])
  ++ (if !hasUndo flow && hasAutoAct flow then [ruleFinding6] else [])
  ++ (if !hasTrust flow && hasAutoAct flow then [ruleFinding7] else [])
  ++ (if !hasConfidence flow && hasAutoAct flow then [ruleFinding8] else [])

-- ===========================================================================
-- Severity sorting and summary utilities (index.ts)
-- ===========================================================================

/-- index.ts: the comparator table, order = (HIGH 0, MEDIUM 1, LOW 2). -/
def severityOrder : Severity → Nat
  | .HIGH => 0
  | .MEDIUM => 1
  | .LOW => 2

/-- Insert a finding after every already-placed finding whose severity rank is
at most its own (left-to-right stable insertion). -/
def insertBySeverity (f : Finding) : List Finding → List Finding
  | [] => [f]
  | g :: gs =>
    if severityOrder f.severity < severityOrder g.severity then f :: g :: gs
    else g :: insertBySeverity f gs

/-- index.ts `sortBySeverity`:
the source sorts a copy of the array with the comparator
order(a.severity) - order(b.severity).  ECMA-262 requires
Array.prototype.sort to be stable, and the comparator depends only on the
three-valued severity rank, so the observable result is the unique stable
reordering by rank — realized here as left-to-right stable insertion. -/
def sortBySeverity (findings : List Finding) : List Finding :=
  findings.foldl (fun acc f => insertBySeverity f acc) []

/-- The severity-bucket view of a list of findings: the HIGH entries in
original order, then the MEDIUM entries, then the LOW entries. -/
def severityBuckets (findings : List Finding) : List Finding :=
  findings.filter (fun f => f.severity == Severity.HIGH)
  ++ findings.filter (fun f => f.severity == Severity.MEDIUM)
  ++ findings.filter (fun f => f.severity == Severity.LOW)

/-- index.ts `calculateOverallRisk`. -/
def calculateOverallRisk (findings : List Finding) : Severity :=
  if findings.any (fun f => f.severity == Severity.HIGH) then .HIGH
  else if findings.any (fun f => f.severity == Severity.MEDIUM) then .MEDIUM
  else .LOW

/-- index.ts `extractHighlights`. -/
def extractHighlights (findings : List Finding) : List String :=
  (findings.take 3).map (fun f => f.title)

-- ===========================================================================
-- AI analysis and normalization (index.ts: runAIAnalysis)
-- ===========================================================================

/-- One entry of the parsed `findings` array of an AI response, before
normalization.  `none` stands for a field that is absent (or, for the string
fields, any other JS-falsy value: the source reads each with the pattern
field-or-fallback). -/
structure RawFinding where
  severity : Option Severity := none
  category : Option Category := none
  title : Option String := none
  description : Option String := none
  evidence : Option (List String) := none
  recommendation : Option String := none
  confidence : Option Rat := none
  principleId : Option String := none
deriving DecidableEq, Repr

/-- JS `Math.max` on two (non-NaN) numbers. -/
def jsMax (a b : Rat) : Rat := if a ≤ b then b else a

/-- JS `Math.min` on two (non-NaN) numbers. -/
def jsMin (a b : Rat) : Rat := if a ≤ b then a else b

/-- The confidence read of index.ts: the expression
confidence-or-0.7 is JS disjunction, so it yields 0.7 both when the field is
absent and when it is the (falsy) number 0. -/
def confidenceOrDefault : Option Rat → Rat
  | none => mkRat 7 10
  | some c => if c = 0 then mkRat 7 10 else c

/-- index.ts `runAIAnalysis`, the per-finding normalization of the parsed
response: Math.min(Math.max(confidence-or-0.7, 0), 1) and the fixed
fallbacks for the other fields. -/
def normalizeAIFinding (f : RawFinding) : Finding :=
  { severity := f.severity.getD .MEDIUM
    category := f.category.getD .TRANSPARENCY
    title := f.title.getD "AI-detected issue"
    description := f.description.getD "No description provided"
    evidence := f.evidence.getD []
    recommendation := f.recommendation.getD "Review and improve this aspect"
    confidence := jsMin (jsMax (confidenceOrDefault f.confidence) 0) 1
    principleId := f.principleId }

/-- Outcome of the external AI call, as observed by `runAIAnalysis`:
`failure` covers every path that lands in the catch block (network error,
timeout, exception, or a response body that does not parse as JSON);
`success` carries the parsed findings array (absent array read as empty). -/
inductive AIOutcome
  | failure (message : String)
  | success (parsed : List RawFinding)
deriving DecidableEq, Repr

/-- index.ts `runAIAnalysis`: returns `[]` when AI is not enabled (no API
key), `[]` on any failure (the catch block), and the normalized findings on
success. -/
def runAIAnalysis (aiEnabled : Bool) (outcome : AIOutcome) : List Finding :=
  if !aiEnabled then []
  else
    match outcome with
    | .failure _ => []
    | .success parsed => parsed.map normalizeAIFinding

/-- index.ts `runHybridAnalysis`. -/
def runHybridAnalysis (flow : Flow) (useAI aiEnabled : Bool)
    (outcome : AIOutcome) : List Finding :=
  let ruleFindings := runRules flow
  if !useAI || !aiEnabled then sortBySeverity ruleFindings
  else
    let aiFindings := runAIAnalysis aiEnabled outcome
    let aiCategories := aiFindings.map (fun f => f.category)
    let filteredRuleFindings :=
      ruleFindings.filter (fun rf => !aiCategories.contains rf.category)
    sortBySeverity (aiFindings ++ filteredRuleFindings)

-- ===========================================================================
-- Rate limiting (security.ts: rateLimiter, aiRateLimiter)
-- ===========================================================================

structure RateLimitEntry where
  count : Nat
  resetTime : Nat
deriving DecidableEq, Repr

inductive RateDecision
  | allow
  | deny (retryAfter : Nat)
deriving DecidableEq, Repr

def RATE_LIMIT_WINDOW : Nat := 60 * 1000
def MAX_REQUESTS_PER_MINUTE : Nat := 10
def AI_LIMIT_WINDOW : Nat := 60 * 60 * 1000
def MAX_AI_REQUESTS_PER_HOUR : Nat := 20

/-- security.ts: Math.ceil((resetTime - now) / 1000), for resetTime ≥ now. -/
def retryAfterSeconds (resetTime now : Nat) : Nat :=
  (resetTime - now + 999) / 1000

/-- security.ts `rateLimiter` / `aiRateLimiter` body, acting on the store
entry for one key at time `now`: the two middleware factories have literally
identical bodies up to the cap and window constants, so both are instances
of this one stepper.  Returns the updated entry and the decision. -/
def rateLimiterStep (maxRequests window now : Nat)
    (entry : Option RateLimitEntry) : RateLimitEntry × RateDecision :=
  match entry with
  | none => ({ count := 1, resetTime := now + window }, .allow)
  | some e =>
    if e.resetTime < now then
      ({ count := 1, resetTime := now + window }, .allow)
    else if maxRequests ≤ e.count then
      (e, .deny (retryAfterSeconds e.resetTime now))
    else
      ({ e with count := e.count + 1 }, .allow)

def generalRateLimiterStep (now : Nat) (entry : Option RateLimitEntry) :
    RateLimitEntry × RateDecision :=
  rateLimiterStep MAX_REQUESTS_PER_MINUTE RATE_LIMIT_WINDOW now entry

def aiRateLimiterStep (now : Nat) (entry : Option RateLimitEntry) :
    RateLimitEntry × RateDecision :=
  rateLimiterStep MAX_AI_REQUESTS_PER_HOUR AI_LIMIT_WINDOW now entry

-- ===========================================================================
-- Cost tracking (security.ts: trackCost)
-- ===========================================================================

structure CostEntry where
  count : Nat
  resetTime : Nat
deriving DecidableEq, Repr

/-- Decision of the cost governor: `allow warned` records whether the
80-percent console warning fired on this request. -/
inductive CostDecision
  | allow (warned : Bool)
  | deny
deriving DecidableEq, Repr

def DAILY_AI_LIMIT : Nat := 100
def DAILY_WINDOW : Nat := 24 * 60 * 60 * 1000

/-- security.ts `trackCost`, acting on the single global entry at time
`now`.  Unlike the two rate limiters, it increments the count FIRST and then
denies when the incremented count has reached the cap — and the increment
sticks even on a denied request.  The warning guard is
count ≥ DAILY_AI_LIMIT * 0.8, i.e. count ≥ 80 exactly, and is only reached
on allowed requests. -/
def trackCostStep (now : Nat) (entry : Option CostEntry) :
    CostEntry × CostDecision :=
  match entry with
  | none => ({ count := 1, resetTime := now + DAILY_WINDOW }, .allow false)
  | some e =>
    if e.resetTime < now then
      ({ count := 1, resetTime := now + DAILY_WINDOW }, .allow false)
    else
      let c := e.count + 1
      if DAILY_AI_LIMIT ≤ c then ({ e with count := c }, .deny)
      else ({ e with count := c }, .allow (decide (80 ≤ c)))

/-- The global cost entry after `n` requests all arriving at time 0,
starting from the empty store. -/
def trackCostIter : Nat → Option CostEntry
  | 0 => none
  | n + 1 => some (trackCostStep 0 (trackCostIter n)).1

/-- Decision handed to the `n`-th request (1-indexed), all requests at
time 0 from the empty store. -/
def costDecisionAt (n : Nat) : CostDecision :=
  (trackCostStep 0 (trackCostIter (n - 1))).2

-- ===========================================================================
-- Analytics aggregator (middleware/analytics.ts)
-- ===========================================================================

structure RequestLog where
  timestamp : String
  ip : String
  endpoint : String
  method : String
  useAI : Bool
  userAgent : Option String := none
  duration : Option Rat := none
  status : Option Nat := none
deriving DecidableEq, Repr

structure DailyStats where
  date : String
  totalRequests : Nat
  aiRequests : Nat
  uniqueIPs : List String
  endpoints : List (String × Nat)
  errors : Nat
  avgResponseTime : Rat
deriving DecidableEq, Repr

/-- The zeroed accumulator started for a new date. -/
def freshDailyStats (date : String) : DailyStats :=
  { date := date
    totalRequests := 0
    aiRequests := 0
    uniqueIPs := []
    endpoints := []
    errors := 0
    avgResponseTime := 0 }

/-- The module-level mutable state of analytics.ts. -/
structure AnalyticsState where
  requestLogs : List RequestLog
  currentDayStats : DailyStats
  historicalStats : List DailyStats
  totalResponseTime : Rat
deriving DecidableEq, Repr

def MAX_LOGS : Nat := 1000

def freshAnalyticsState (today : String) : AnalyticsState :=
  { requestLogs := []
    currentDayStats := freshDailyStats today
    historicalStats := []
    totalResponseTime := 0 }

/-- analytics.ts `checkAndResetDaily`, with the current calendar date passed
explicitly: archive the accumulator (a clone, so its totals are frozen) when
the date changed, dropping the oldest history row when more than 30 would
remain, and start a zeroed accumulator; otherwise do nothing. -/
def checkAndResetDaily (today : String) (s : AnalyticsState) : AnalyticsState :=
  if s.currentDayStats.date ≠ today then
    let archived := s.historicalStats ++ [s.currentDayStats]
    let archived := if archived.length > 30 then archived.tail else archived
    { s with
      historicalStats := archived
      currentDayStats := freshDailyStats today
      totalResponseTime := 0 }
  else s

/-- JS `Map.prototype.set`: replace in place when the key exists (insertion
order preserved), append otherwise. -/
def setAssoc (k : String) (v : Nat) : List (String × Nat) → List (String × Nat)
  | [] => [(k, v)]
  | (k', v') :: t => if k' = k then (k, v) :: t else (k', v') :: setAssoc k v t

/-- analytics.ts `logRequest`: rollover check, append to the ring buffer
(evicting the oldest element past 1000), and bump the day counters.  The
source returns the appended entry by object reference; the model addresses
it by position instead (it sits at index `requestLogs.length - 1`). -/
def logRequest (today timestamp ip endpoint method : String) (useAI : Bool)
    (userAgent : Option String) (s : AnalyticsState) : AnalyticsState :=
  let s := checkAndResetDaily today s
  let log : RequestLog :=
    { timestamp := timestamp, ip := ip, endpoint := endpoint, method := method
      useAI := useAI, userAgent := userAgent }
  let logs := s.requestLogs ++ [log]
  let logs := if logs.length > MAX_LOGS then logs.tail else logs
  let cur := s.currentDayStats
  let cur :=
    { cur with
      totalRequests := cur.totalRequests + 1
      aiRequests := cur.aiRequests + (if useAI then 1 else 0)
      uniqueIPs :=
        if cur.uniqueIPs.contains ip then cur.uniqueIPs else cur.uniqueIPs ++ [ip]
      endpoints :=
        setAssoc endpoint ((cur.endpoints.lookup endpoint).getD 0 + 1) cur.endpoints }
  { s with requestLogs := logs, currentDayStats := cur }

/-- analytics.ts `logResponse`: back-fill status and duration on the entry
(through its position; a no-op on the buffer if the entry was already
evicted, matching the orphaned-object mutation of the source), bump the
error counter for status ≥ 400, and recompute the running average.
Divergence note: when `totalRequests = 0` (a response that completes after a
rollover) the JS division yields Infinity while `Rat` division yields 0; no
claim exercises that path. -/
def logResponse (idx status : Nat) (duration : Rat) (s : AnalyticsState) :
    AnalyticsState :=
  let logs :=
    match s.requestLogs.get? idx with
    | some e =>
      s.requestLogs.set idx { e with status := some status, duration := some duration }
    | none => s.requestLogs
  let cur := s.currentDayStats
  let total := s.totalResponseTime + duration
  { s with
    requestLogs := logs
    totalResponseTime := total
    currentDayStats :=
      { cur with
        errors := if 400 ≤ status then cur.errors + 1 else cur.errors
        avgResponseTime := total / (cur.totalRequests : Rat) } }

-- ===========================================================================
-- Sequential request/response scenarios for the analytics claims
-- ===========================================================================

/-- One request logged and then completed with the given status and
duration, all fields other than status and duration fixed. -/
def processPair (today : String) (s : AnalyticsState) (p : Nat × Rat) :
    AnalyticsState :=
  let s' := logRequest today "t" "ip" "/analyze" "POST" false none s
  logResponse (s'.requestLogs.length - 1) p.1 p.2 s'

/-- A day of alternating request/response pairs. -/
def processPairs (today : String) (pairs : List (Nat × Rat))
    (s : AnalyticsState) : AnalyticsState :=
  pairs.foldl (processPair today) s

/-- The not-yet-completed log entry `processPair` appends. -/
def pendingLog : RequestLog :=
  { timestamp := "t", ip := "ip", endpoint := "/analyze", method := "POST"
    useAI := false, userAgent := none }

/-- The fully back-filled log entry a processed pair leaves behind. -/
def filledLog (p : Nat × Rat) : RequestLog :=
  { timestamp := "t", ip := "ip", endpoint := "/analyze", method := "POST"
    useAI := false, userAgent := none
    status := some p.1, duration := some p.2 }

/-- Closed form of the analytics state after a day of processed pairs. -/
def dayState (today : String) (pairs : List (Nat × Rat)) : AnalyticsState :=
  { requestLogs := pairs.map filledLog
    currentDayStats :=
      { date := today
        totalRequests := pairs.length
        aiRequests := 0
        uniqueIPs := if pairs.isEmpty then [] else ["ip"]
        endpoints := if pairs.isEmpty then [] else [("/analyze", pairs.length)]
        errors := (pairs.filter (fun p => 400 ≤ p.1)).length
        avgResponseTime := (pairs.map Prod.snd).sum / (pairs.length : Rat) }
    historicalStats := []
    totalResponseTime := (pairs.map Prod.snd).sum }

-- ===========================================================================
-- Concrete instances used by the claims
-- ===========================================================================

/-- The end-to-end scenario flow of the spec: goal "approve posts" with the
two steps "AI generates content" and "Post is automatically published". -/
def flowC5 : Flow :=
  { goal := "approve posts"
    steps := [{ text := "AI generates content" },
              { text := "Post is automatically published" }] }

/-- A four-step flow whose step texts match no keyword of any rule. -/
def noKeywordFlow : Flow :=
  { goal := "demo"
    steps := [{ text := "a" }, { text := "b" }, { text := "c" }, { text := "d" }] }

/-- A raw AI finding of category CONTROL, used for the merge-precedence
scenario. -/
def aiControlRaw : RawFinding :=
  { severity := some .HIGH
    category := some .CONTROL
    title := some "AI-detected control issue"
    description := some "The AI reviewer flagged an approval gap."
    confidence := some (mkRat 9 10) }

-- ===========================================================================
-- Lemmas: the stable severity sort equals the severity-bucket concatenation
-- ===========================================================================

lemma insertBySeverity_append (f : Finding) (A B : List Finding)
    (hA : ∀ g ∈ A, severityOrder g.severity ≤ severityOrder f.severity)
    (hB : ∀ g ∈ B, severityOrder f.severity < severityOrder g.severity) :
    insertBySeverity f (A ++ B) = A ++ f :: B := by
  induction A with
  | nil =>
    simp only [List.nil_append]
    cases B with
    | nil => rfl
    | cons g gs =>
      have hg := hB g (by simp)
      simp [insertBySeverity, hg]
  | cons a A ih =>
    have ha : ¬ severityOrder f.severity < severityOrder a.severity := by
      have := hA a (by simp)
      omega
    simp only [List.cons_append, insertBySeverity, if_neg ha]
    have := ih (fun g hg => hA g (by simp [hg]))
    simp [this]

lemma mem_filter_severity (sev : Severity) (l : List Finding) (g : Finding)
    (hg : g ∈ l.filter (fun f => f.severity == sev)) : g.severity = sev := by
  have := List.of_mem_filter hg
  simpa using this

lemma insertBySeverity_buckets (f : Finding) (m : List Finding) :
    insertBySeverity f (severityBuckets m) = severityBuckets (m ++ [f]) := by
  have hH : ∀ g ∈ m.filter (fun f => f.severity == Severity.HIGH),
      severityOrder g.severity = 0 := by
    intro g hg; rw [mem_filter_severity _ _ _ hg]; rfl
  have hM : ∀ g ∈ m.filter (fun f => f.severity == Severity.MEDIUM),
      severityOrder g.severity = 1 := by
    intro g hg; rw [mem_filter_severity _ _ _ hg]; rfl
  have hL : ∀ g ∈ m.filter (fun f => f.severity == Severity.LOW),
      severityOrder g.severity = 2 := by
    intro g hg; rw [mem_filter_severity _ _ _ hg]; rfl
  rcases hsev : f.severity with _ | _ | _
  · -- HIGH: inserted at the end of the HIGH bucket
    have key := insertBySeverity_append f
      (m.filter (fun f => f.severity == Severity.HIGH))
      (m.filter (fun f => f.severity == Severity.MEDIUM)
        ++ m.filter (fun f => f.severity == Severity.LOW))
      (by intro g hg; rw [hH g hg, hsev]; decide)
      (by
        intro g hg
        rcases List.mem_append.mp hg with h | h
        · rw [hM g h, hsev]; decide
        · rw [hL g h, hsev]; decide)
    rw [severityBuckets, List.append_assoc, key]
    simp [severityBuckets, List.filter_append, hsev, List.append_assoc]
  · -- MEDIUM: inserted at the end of the MEDIUM bucket
    have key := insertBySeverity_append f
      (m.filter (fun f => f.severity == Severity.HIGH)
        ++ m.filter (fun f => f.severity == Severity.MEDIUM))
      (m.filter (fun f => f.severity == Severity.LOW))
      (by
        intro g hg
        rcases List.mem_append.mp hg with h | h
        · rw [hH g h, hsev]; decide
        · rw [hM g h, hsev]; decide)
      (by intro g hg; rw [hL g hg, hsev]; decide)
    rw [severityBuckets, key]
    simp [severityBuckets, List.filter_append, hsev, List.append_assoc]
  · -- LOW: appended at the very end
    have key := insertBySeverity_append f
      ((m.filter (fun f => f.severity == Severity.HIGH)
        ++ m.filter (fun f => f.severity == Severity.MEDIUM))
        ++ m.filter (fun f => f.severity == Severity.LOW))
      []
      (by
        intro g hg
        rcases List.mem_append.mp hg with h | h
        · rcases List.mem_append.mp h with h' | h'
          · rw [hH g h', hsev]; decide
          · rw [hM g h', hsev]; decide
        · rw [hL g h, hsev]; decide)
      (by intro g hg; simp at hg)
    rw [List.append_nil] at key
    rw [severityBuckets, key]
    simp [severityBuckets, List.filter_append, hsev, List.append_assoc]

lemma foldl_insertBySeverity (l m : List Finding) :
    l.foldl (fun acc f => insertBySeverity f acc) (severityBuckets m)
      = severityBuckets (m ++ l) := by
  induction l generalizing m with
  | nil => simp
  | cons f l ih =>
    simp only [List.foldl_cons, insertBySeverity_buckets f m]
    rw [ih (m ++ [f])]
    simp

/-- The severity sort is exactly the bucket concatenation: HIGH findings in
original order, then MEDIUM, then LOW. -/
lemma sortBySeverity_eq_buckets (l : List Finding) :
    sortBySeverity l = severityBuckets l := by
  have := foldl_insertBySeverity l []
  simpa [sortBySeverity, severityBuckets] using this

lemma severityBuckets_perm (l : List Finding) : (severityBuckets l).Perm l := by
  induction l with
  | nil => simp [severityBuckets]
  | cons f l ih =>
    rcases hsev : f.severity with _ | _ | _
    · have h : severityBuckets (f :: l) = f :: severityBuckets l := by
        simp [severityBuckets, List.filter_cons, hsev]
      rw [h]
      exact ih.cons f
    · have h : severityBuckets (f :: l) =
          l.filter (fun g => g.severity == Severity.HIGH)
            ++ f :: (l.filter (fun g => g.severity == Severity.MEDIUM)
              ++ l.filter (fun g => g.severity == Severity.LOW)) := by
        simp [severityBuckets, List.filter_cons, hsev]
      rw [h]
      refine List.perm_middle.trans ?_
      have h2 : severityBuckets l =
          l.filter (fun g => g.severity == Severity.HIGH)
            ++ (l.filter (fun g => g.severity == Severity.MEDIUM)
              ++ l.filter (fun g => g.severity == Severity.LOW)) := by
        simp [severityBuckets]
      rw [← h2]
      exact ih.cons f
    · have h : severityBuckets (f :: l) =
          (l.filter (fun g => g.severity == Severity.HIGH)
            ++ l.filter (fun g => g.severity == Severity.MEDIUM))
            ++ f :: l.filter (fun g => g.severity == Severity.LOW) := by
        simp [severityBuckets, List.filter_cons, hsev]
      rw [h]
      refine List.perm_middle.trans ?_
      have h2 : severityBuckets l =
          (l.filter (fun g => g.severity == Severity.HIGH)
            ++ l.filter (fun g => g.severity == Severity.MEDIUM))
            ++ l.filter (fun g => g.severity == Severity.LOW) := by
        simp [severityBuckets]
      rw [← h2]
      exact ih.cons f

lemma sortBySeverity_perm (l : List Finding) : (sortBySeverity l).Perm l := by
  rw [sortBySeverity_eq_buckets]
  exact severityBuckets_perm l

lemma mem_sortBySeverity (l : List Finding) (f : Finding) :
    f ∈ sortBySeverity l ↔ f ∈ l := (sortBySeverity_perm l).mem_iff

lemma filter_severity_self (sev : Severity) (l : List Finding) :
    (l.filter (fun f => f.severity == sev)).filter (fun f => f.severity == sev)
      = l.filter (fun f => f.severity == sev) := by
  apply List.filter_eq_self.mpr
  intro f hf
  simp [mem_filter_severity sev l f hf]

lemma filter_severity_other (sev sev' : Severity) (l : List Finding)
    (h : sev ≠ sev') :
    (l.filter (fun f => f.severity == sev)).filter (fun f => f.severity == sev')
      = [] := by
  apply List.filter_eq_nil_iff.mpr
  intro f hf
  simp [mem_filter_severity sev l f hf]
  exact h

lemma severityBuckets_idem (l : List Finding) :
    severityBuckets (severityBuckets l) = severityBuckets l := by
  conv_lhs => rw [severityBuckets]
  rw [severityBuckets]
  simp only [List.filter_append, filter_severity_self,
    filter_severity_other _ _ _ (by decide : Severity.HIGH ≠ Severity.MEDIUM),
    filter_severity_other _ _ _ (by decide : Severity.HIGH ≠ Severity.LOW),
    filter_severity_other _ _ _ (by decide : Severity.MEDIUM ≠ Severity.HIGH),
    filter_severity_other _ _ _ (by decide : Severity.MEDIUM ≠ Severity.LOW),
    filter_severity_other _ _ _ (by decide : Severity.LOW ≠ Severity.HIGH),
    filter_severity_other _ _ _ (by decide : Severity.LOW ≠ Severity.MEDIUM)]
  simp

-- ===========================================================================
-- Lemmas: keyword monotonicity for the rule evaluator
-- ===========================================================================

lemma includesAny_sublist (text : String) (terms sub : List String)
    (hsub : ∀ t ∈ sub, t ∈ terms) (h : includesAny text terms = false) :
    includesAny text sub = false := by
  simp only [includesAny, List.any_eq_false] at h ⊢
  intro t ht
  exact h t (hsub t ht)

lemma stepsAny_false (flow : Flow) (terms : List String)
    (hsub : ∀ t ∈ terms, t ∈ allRuleTerms)
    (h : flow.steps.all (fun s => !includesAny s.text allRuleTerms) = true) :
    flow.steps.any (fun s => includesAny s.text terms) = false := by
  simp only [List.any_eq_false]
  intro s hs
  have hall := (List.all_eq_true.mp h) s hs
  simp only [Bool.not_eq_true'] at hall
  simp [includesAny_sublist s.text allRuleTerms terms hsub hall]

-- ===========================================================================
-- Claim C7
-- ===========================================================================

/-- C7 (confirmed): for every list of findings, `sortBySeverity` orders them
HIGH then MEDIUM then LOW and is stable within each severity tier (the
result is exactly the HIGH entries in original order, then the MEDIUM
entries, then the LOW entries); in particular an input with severities
[LOW, HIGH, MEDIUM, HIGH] yields [HIGH, HIGH, MEDIUM, LOW] with the two
HIGH findings in their original relative order. -/
theorem sortBySeverity_stable :
    (∀ fs : List Finding, sortBySeverity fs =
      fs.filter (fun f => f.severity == Severity.HIGH)
        ++ fs.filter (fun f => f.severity == Severity.MEDIUM)
        ++ fs.filter (fun f => f.severity == Severity.LOW))
    ∧ ∀ a b c d : Finding,
        a.severity = Severity.LOW → b.severity = Severity.HIGH →
        c.severity = Severity.MEDIUM → d.severity = Severity.HIGH →
        sortBySeverity [a, b, c, d] = [b, d, c, a] := by
  constructor
  · intro fs
    rw [sortBySeverity_eq_buckets]
    rfl
  · intro a b c d ha hb hc hd
    rw [sortBySeverity_eq_buckets]
    simp [severityBuckets, List.filter_cons, ha, hb, hc, hd]

/-- Witness for C7 at a concrete input: ruleFinding7 is LOW, ruleFinding1
and ruleFinding2 are HIGH, ruleFinding3 is MEDIUM. -/
theorem sortBySeverity_stable_witness :
    sortBySeverity [ruleFinding7, ruleFinding1, ruleFinding3, ruleFinding2]
      = [ruleFinding1, ruleFinding2, ruleFinding3, ruleFinding7] :=
  sortBySeverity_stable.2 ruleFinding7 ruleFinding1 ruleFinding3 ruleFinding2
    rfl rfl rfl rfl

-- ===========================================================================
-- Claim C1
-- ===========================================================================

/-- C1 (counterexample): `noKeywordFlow` has four steps none of whose texts
contains any term of any keyword set consulted by `runRules`, yet
`runRules` returns 4 findings, not 8 — checks 2, 6, 7 and 8 cannot fire
without autonomous-action language, which the premise of the claim
excludes. -/
theorem runRules_allchecks_cex :
    (noKeywordFlow.steps.all (fun s => !includesAny s.text allRuleTerms)) = true
    ∧ (runRules noKeywordFlow).length = 4
    ∧ (runRules noKeywordFlow).length ≠ 8 := by
  refine ⟨by decide, by decide, by decide⟩

/-- C1 (amended): for every flow in which no step's text contains any term
of any of the rule keyword sets, `runRules` returns exactly the findings of
check 1 (HIGH/RECOVERY, confidence 0.9) and check 3 (MEDIUM/TRANSPARENCY,
0.85), plus check 4 (MEDIUM/TRANSPARENCY, 0.8) exactly when the flow has
more than 3 steps and check 5 (MEDIUM/MEMORY, 0.75) exactly when it has
more than 2 steps; checks 2, 6, 7 and 8 require autonomous-action language
and never fire on such a flow. -/
theorem runRules_noKeyword (flow : Flow)
    (h : flow.steps.all (fun s => !includesAny s.text allRuleTerms) = true) :
    runRules flow =
      [ruleFinding1, ruleFinding3]
        ++ (if flow.steps.length > 3 then [ruleFinding4] else [])
        ++ (if flow.steps.length > 2 then [ruleFinding5] else [])
    ∧ ruleFinding1.severity = .HIGH ∧ ruleFinding1.category = .RECOVERY
    ∧ ruleFinding1.confidence = mkRat 9 10
    ∧ ruleFinding3.severity = .MEDIUM ∧ ruleFinding3.category = .TRANSPARENCY
    ∧ ruleFinding3.confidence = mkRat 85 100
    ∧ ruleFinding4.severity = .MEDIUM ∧ ruleFinding4.category = .TRANSPARENCY
    ∧ ruleFinding4.confidence = mkRat 8 10
    ∧ ruleFinding5.severity = .MEDIUM ∧ ruleFinding5.category = .MEMORY
    ∧ ruleFinding5.confidence = mkRat 75 100 := by
  have h1 : hasFailure flow = false :=
    stepsAny_false flow failureTerms (by decide) h
  have hAuto : hasAutoAct flow = false :=
    stepsAny_false flow autoActTerms (by decide) h
  have h3 : hasExplain flow = false :=
    stepsAny_false flow explainTerms (by decide) h
  have h4 : hasProgress flow = false :=
    stepsAny_false flow progressTerms (by decide) h
  have h5 : hasMemory flow = false :=
    stepsAny_false flow memoryTerms (by decide) h
  refine ⟨?_, rfl, rfl, rfl, rfl, rfl, rfl, rfl, rfl, rfl, rfl, rfl, rfl⟩
  rw [runRules, hasFailure, hasAutoAct, hasExplain, hasProgress, hasMemory] at *
  rw [h1, hAuto, h3, h4, h5]
  simp

/-- Witness for C1 at the concrete keyword-free four-step flow. -/
theorem runRules_noKeyword_witness :
    runRules noKeywordFlow =
      [ruleFinding1, ruleFinding3]
        ++ (if noKeywordFlow.steps.length > 3 then [ruleFinding4] else [])
        ++ (if noKeywordFlow.steps.length > 2 then [ruleFinding5] else []) :=
  (runRules_noKeyword noKeywordFlow (by decide)).1

-- ===========================================================================
-- Claim C6
-- ===========================================================================

/-- C6 (confirmed): for every flow and every failing AI outcome (timeout,
exception, or a response that does not parse as JSON — all of which land in
the catch block), the AI contribution is the empty list and the hybrid
analysis returns exactly the severity-sorted rule findings, in every
useAI/aiEnabled mode; the model has no error channel, matching the source
where the catch block absorbs every failure. -/
theorem aiFailure_ruleOnly (flow : Flow) (useAI aiEnabled : Bool) (msg : String) :
    runAIAnalysis aiEnabled (.failure msg) = []
    ∧ runHybridAnalysis flow useAI aiEnabled (.failure msg)
        = sortBySeverity (runRules flow) := by
  constructor
  · cases aiEnabled <;> rfl
  · cases useAI <;> cases aiEnabled <;>
      simp [runHybridAnalysis, runAIAnalysis]

-- ===========================================================================
-- Claim C4
-- ===========================================================================

/-- C4 (confirmed): when AI is requested and enabled, the hybrid merge
returns (a permutation-identical severity sort of) the AI findings followed
by exactly those rule findings whose category is not among the AI findings'
categories; the result is severity-bucket sorted; every AI finding is in
the result, and every rule finding of a non-overridden category is in the
result.  In particular, for a rule finding of category CONTROL and an AI
finding of category CONTROL, the result contains the AI finding, drops the
rule CONTROL findings, and keeps the rule findings of other categories. -/
theorem hybridMerge_categoryPrecedence :
    (∀ (flow : Flow) (o : AIOutcome),
      (runHybridAnalysis flow true true o).Perm
        (runAIAnalysis true o
          ++ (runRules flow).filter (fun rf =>
                !((runAIAnalysis true o).map (fun f => f.category)).contains
                  rf.category))
      ∧ severityBuckets (runHybridAnalysis flow true true o)
          = runHybridAnalysis flow true true o
      ∧ (∀ f ∈ runAIAnalysis true o, f ∈ runHybridAnalysis flow true true o)
      ∧ (∀ rf ∈ runRules flow,
          ¬ rf.category ∈ (runAIAnalysis true o).map (fun f => f.category) →
            rf ∈ runHybridAnalysis flow true true o))
    ∧ (normalizeAIFinding aiControlRaw
        ∈ runHybridAnalysis flowC5 true true (.success [aiControlRaw])
      ∧ ruleFinding2 ∉ runHybridAnalysis flowC5 true true (.success [aiControlRaw])
      ∧ ruleFinding6 ∉ runHybridAnalysis flowC5 true true (.success [aiControlRaw])
      ∧ ruleFinding1 ∈ runHybridAnalysis flowC5 true true (.success [aiControlRaw])
      ∧ ruleFinding3 ∈ runHybridAnalysis flowC5 true true (.success [aiControlRaw])) := by
  constructor
  · intro flow o
    have hdef : runHybridAnalysis flow true true o =
        sortBySeverity (runAIAnalysis true o
          ++ (runRules flow).filter (fun rf =>
                !((runAIAnalysis true o).map (fun f => f.category)).contains
                  rf.category)) := rfl
    refine ⟨?_, ?_, ?_, ?_⟩
    · rw [hdef]
      exact sortBySeverity_perm _
    · rw [hdef, sortBySeverity_eq_buckets]
      exact severityBuckets_idem _
    · intro f hf
      rw [hdef, mem_sortBySeverity]
      exact List.mem_append_left _ hf
    · intro rf hrf hcat
      rw [hdef, mem_sortBySeverity]
      refine List.mem_append_right _ ?_
      refine List.mem_filter.mpr ⟨hrf, ?_⟩
      simpa using hcat
  · refine ⟨by decide, by decide, by decide, by decide, by decide⟩

/-- Witness for C4: with a failing AI outcome the AI list is empty, so
every rule finding of flowC5 — here the HIGH/RECOVERY one — survives into
the hybrid result. -/
theorem hybridMerge_categoryPrecedence_witness :
    ruleFinding1 ∈ runHybridAnalysis flowC5 true true (.failure "boom") :=
  (hybridMerge_categoryPrecedence.1 flowC5 (.failure "boom")).2.2.2
    ruleFinding1 (by decide) (by decide)

-- ===========================================================================
-- Claim C5
-- ===========================================================================

/-- C5 (counterexample): the rule-only analysis of the scenario flow does
contain the HIGH/CONTROL finding with confidence 0.95, but no finding of
the result has an evidence entry containing the fragment
"automatically published" (even case-insensitively as a substring): the
evidence lists of rule findings are fixed literals that never quote the
flow. -/
theorem flowC5_evidence_cex :
    ruleFinding2 ∈ runHybridAnalysis flowC5 false false (.failure "")
    ∧ ruleFinding2.severity = Severity.HIGH
    ∧ ruleFinding2.category = Category.CONTROL
    ∧ ruleFinding2.confidence = mkRat 95 100
    ∧ ((runHybridAnalysis flowC5 false false (.failure "")).all
        (fun f => !(f.evidence.any (fun e =>
          containsSeq "automatically published".data
            (e.data.map Char.toLower))))) = true := by
  refine ⟨by decide, by decide, by decide, by decide, by decide⟩

/-- C5 (amended): for the exact flow (goal "approve posts", steps
"AI generates content", "Post is automatically published") analyzed in
rule-only mode, the result includes the HIGH/CONTROL missing-approval
finding ("AI takes actions without user approval") with confidence 0.95,
whose evidence list is the fixed literal list containing
"AI executes actions automatically" (not a quote of the flow text), and the
overallRisk of the result is HIGH. -/
theorem flowC5_analysis :
    ruleFinding2 ∈ runHybridAnalysis flowC5 false false (.failure "")
    ∧ ruleFinding2.severity = Severity.HIGH
    ∧ ruleFinding2.category = Category.CONTROL
    ∧ ruleFinding2.title = "AI takes actions without user approval"
    ∧ ruleFinding2.confidence = mkRat 95 100
    ∧ "AI executes actions automatically" ∈ ruleFinding2.evidence
    ∧ calculateOverallRisk (runHybridAnalysis flowC5 false false (.failure ""))
        = Severity.HIGH := by
  refine ⟨by decide, by decide, by decide, by decide, by decide, by decide, by decide⟩

-- ===========================================================================
-- Claim C8
-- ===========================================================================

/-- C8 (counterexample): an AI finding that is present with confidence 0 is
not clamped to the interval [0,1] (which would give 0): the source reads the
confidence with JS disjunction, treats the falsy 0 as missing, and produces
0.7. -/
theorem normalize_confidence_cex :
    (normalizeAIFinding { confidence := some 0 }).confidence = mkRat 7 10
    ∧ jsMin (jsMax (0 : Rat) 0) 1 = 0
    ∧ (mkRat 7 10 : Rat) ≠ 0 := by
  refine ⟨by decide, by decide, by decide⟩

/-- C8 (amended): every AI finding is normalized on ingestion — missing
severity becomes MEDIUM, missing category becomes TRANSPARENCY, missing
title/description/recommendation become their fixed fallback strings, a
missing evidence array becomes empty — and the confidence is clamped to
[0,1] with the default 0.7 substituted when the confidence is missing OR
equal to 0 (JS-falsy); the resulting confidence always lies in [0,1]. -/
theorem normalizeAIFinding_defaults (f : RawFinding) :
    (normalizeAIFinding f).severity = f.severity.getD Severity.MEDIUM
    ∧ (normalizeAIFinding f).category = f.category.getD Category.TRANSPARENCY
    ∧ (normalizeAIFinding f).title = f.title.getD "AI-detected issue"
    ∧ (normalizeAIFinding f).description = f.description.getD "No description provided"
    ∧ (normalizeAIFinding f).recommendation
        = f.recommendation.getD "Review and improve this aspect"
    ∧ (normalizeAIFinding f).evidence = f.evidence.getD []
    ∧ ((f.confidence = none ∨ f.confidence = some 0) →
        (normalizeAIFinding f).confidence = mkRat 7 10)
    ∧ (∀ c : Rat, f.confidence = some c → c ≠ 0 →
        (normalizeAIFinding f).confidence = jsMin (jsMax c 0) 1)
    ∧ 0 ≤ (normalizeAIFinding f).confidence
    ∧ (normalizeAIFinding f).confidence ≤ 1 := by
  have hconf : (normalizeAIFinding f).confidence
      = jsMin (jsMax (confidenceOrDefault f.confidence) 0) 1 := rfl
  have hclamp : ∀ x : Rat, 0 ≤ jsMin (jsMax x 0) 1 ∧ jsMin (jsMax x 0) 1 ≤ 1 := by
    intro x
    unfold jsMin jsMax
    split_ifs with h1 h2 h3 <;> constructor <;> first | decide | linarith
  refine ⟨rfl, rfl, rfl, rfl, rfl, rfl, ?_, ?_, ?_, ?_⟩
  · rintro (h | h) <;> rw [hconf, h] <;> decide
  · intro c hc hc0
    rw [hconf, hc]
    simp [confidenceOrDefault, hc0]
  · rw [hconf]
    exact (hclamp _).1
  · rw [hconf]
    exact (hclamp _).2

/-- Witness for C8 at the concrete CONTROL raw finding (confidence 0.9,
present and nonzero). -/
theorem normalizeAIFinding_defaults_witness :
    (normalizeAIFinding aiControlRaw).confidence
      = jsMin (jsMax (mkRat 9 10) 0) 1 :=
  (normalizeAIFinding_defaults aiControlRaw).2.2.2.2.2.2.2.1
    (mkRat 9 10) rfl (by decide)

-- ===========================================================================
-- Claim C2
-- ===========================================================================

/-- C2 (counterexample): the global daily cost counter violates the claimed
shared transition rules at a concrete state: at time 0 with an active entry
(count 99, resetAt 1) — so resetAt > t and count < cap — the claim says the
request is allowed with the count incremented, but trackCost increments the
count to 100 and DENIES; the count changes even though the request is
denied. -/
theorem trackCost_claim_cex :
    (0 : Nat) < 1 ∧ 99 < DAILY_AI_LIMIT
    ∧ (trackCostStep 0 (some { count := 99, resetTime := 1 })).2
        = CostDecision.deny
    ∧ (trackCostStep 0 (some { count := 99, resetTime := 1 })).1.count = 100 := by
  refine ⟨by decide, by decide, by decide, by decide⟩

/-- C2 (amended): the two per-client limiters implement, for a request at
time t: absent or resetAt < t (strictly — the window is still active at
resetAt = t) replaces the entry with Active(1, t+window) and allows;
active with count < cap increments and allows; active with count ≥ cap
denies with the count left unchanged, signaling ceil((resetAt-t)/1000)
seconds.  The global daily cost counter shares only the window-replacement
rule: on an active window it increments the count FIRST (even when it then
denies) and denies exactly when the incremented count has reached the cap,
so it allows at most cap-1 requests per window; its warning flag fires on
allowed requests whose incremented count is at least 80.  Allowed requests
never push a per-client count past its cap, and allowed cost requests stay
below the daily cap. -/
theorem rateLimit_transitions :
    (∀ maxRequests window now : Nat,
      rateLimiterStep maxRequests window now none
        = ({ count := 1, resetTime := now + window }, RateDecision.allow))
    ∧ (∀ maxRequests window now c r : Nat, r < now →
      rateLimiterStep maxRequests window now (some { count := c, resetTime := r })
        = ({ count := 1, resetTime := now + window }, RateDecision.allow))
    ∧ (∀ maxRequests window now c r : Nat, now ≤ r → c < maxRequests →
      rateLimiterStep maxRequests window now (some { count := c, resetTime := r })
        = ({ count := c + 1, resetTime := r }, RateDecision.allow))
    ∧ (∀ maxRequests window now c r : Nat, now ≤ r → maxRequests ≤ c →
      rateLimiterStep maxRequests window now (some { count := c, resetTime := r })
        = ({ count := c, resetTime := r },
           RateDecision.deny ((r - now + 999) / 1000)))
    ∧ (∀ now : Nat,
      trackCostStep now none
        = ({ count := 1, resetTime := now + DAILY_WINDOW },
           CostDecision.allow false))
    ∧ (∀ now c r : Nat, r < now →
      trackCostStep now (some { count := c, resetTime := r })
        = ({ count := 1, resetTime := now + DAILY_WINDOW },
           CostDecision.allow false))
    ∧ (∀ now c r : Nat, now ≤ r → c + 1 < DAILY_AI_LIMIT →
      trackCostStep now (some { count := c, resetTime := r })
        = ({ count := c + 1, resetTime := r },
           CostDecision.allow (decide (80 ≤ c + 1))))
    ∧ (∀ now c r : Nat, now ≤ r → DAILY_AI_LIMIT ≤ c + 1 →
      trackCostStep now (some { count := c, resetTime := r })
        = ({ count := c + 1, resetTime := r }, CostDecision.deny))
    ∧ (∀ (maxRequests window now : Nat) (entry : Option RateLimitEntry),
        0 < maxRequests →
        (rateLimiterStep maxRequests window now entry).2 = RateDecision.allow →
        (rateLimiterStep maxRequests window now entry).1.count ≤ maxRequests)
    ∧ (∀ (now : Nat) (entry : Option CostEntry),
        (trackCostStep now entry).2 ≠ CostDecision.deny →
        (trackCostStep now entry).1.count < DAILY_AI_LIMIT) := by
  refine ⟨?_, ?_, ?_, ?_, ?_, ?_, ?_, ?_, ?_, ?_⟩
  · intro maxRequests window now
    rfl
  · intro maxRequests window now c r h
    simp [rateLimiterStep, h]
  · intro maxRequests window now c r h hc
    simp [rateLimiterStep, Nat.not_lt.mpr h, Nat.not_le.mpr hc]
  · intro maxRequests window now c r h hc
    simp [rateLimiterStep, Nat.not_lt.mpr h, hc, retryAfterSeconds]
  · intro now
    rfl
  · intro now c r h
    simp [trackCostStep, h]
  · intro now c r h hc
    simp [trackCostStep, Nat.not_lt.mpr h, Nat.not_le.mpr hc]
  · intro now c r h hc
    simp [trackCostStep, Nat.not_lt.mpr h, hc]
  · intro maxRequests window now entry h0 hallow
    match entry with
    | none => simpa [rateLimiterStep] using h0
    | some e =>
      simp only [rateLimiterStep] at hallow ⊢
      split_ifs at hallow ⊢ with h1 h2
      · simpa using h0
      · simp only [Nat.not_le] at h2
        exact h2
  · intro now entry hallow
    match entry with
    | none => simp [trackCostStep, DAILY_AI_LIMIT]
    | some e =>
      simp only [trackCostStep] at hallow ⊢
      split_ifs at hallow ⊢ with h1 h2
      · simp [DAILY_AI_LIMIT]
      · exact absurd rfl hallow
      · simp only [Nat.not_le] at h2
        exact h2

/-- Witness for C2 at concrete states: a per-client increment-and-allow
step, and the cost governor denying at pre-count 99 with the count still
incremented. -/
theorem rateLimit_transitions_witness :
    rateLimiterStep 10 60000 5 (some { count := 3, resetTime := 10 })
      = ({ count := 4, resetTime := 10 }, RateDecision.allow)
    ∧ trackCostStep 0 (some { count := 99, resetTime := 5 })
      = ({ count := 100, resetTime := 5 }, CostDecision.deny) :=
  ⟨rateLimit_transitions.2.2.1 10 60000 5 3 10 (by decide) (by decide),
   rateLimit_transitions.2.2.2.2.2.2.2.1 0 99 5 (by decide) (by decide)⟩

-- ===========================================================================
-- Claim C3
-- ===========================================================================

/-- C3 (code bug, evaluated): from an empty counter with all requests inside
one window, requests 1 through 99 are all allowed (none denied), the
non-blocking warning is observable from the 80th request on, but the 100th
request is DENIED (as is the 101st): trackCost increments before comparing
and denies when the incremented count reaches the cap, so only 99 requests
are served against the documented daily maximum of 100. -/
theorem trackCost_hundredth_denied :
    ((List.range 99).all
      (fun i => !((trackCostStep 0 (trackCostIter i)).2 == CostDecision.deny)))
      = true
    ∧ costDecisionAt 80 = CostDecision.allow true
    ∧ costDecisionAt 99 = CostDecision.allow true
    ∧ costDecisionAt 100 = CostDecision.deny
    ∧ costDecisionAt 101 = CostDecision.deny := by
  refine ⟨by decide, by decide, by decide, by decide, by decide⟩

-- ===========================================================================
-- Lemmas: analytics bookkeeping
-- ===========================================================================

lemma tail_append_singleton {α : Type} (l : List α) (a : α) (h : l ≠ []) :
    (l ++ [a]).tail = l.tail ++ [a] := by
  cases l with
  | nil => exact absurd rfl h
  | cons x xs => simp

lemma set_concat_length {α : Type} (l : List α) (a b : α) :
    (l ++ [a]).set l.length b = l ++ [b] := by
  induction l with
  | nil => simp
  | cons x xs ih => simp [ih]

lemma checkAndResetDaily_requestLogs (today : String) (s : AnalyticsState) :
    (checkAndResetDaily today s).requestLogs = s.requestLogs := by
  unfold checkAndResetDaily
  split_ifs <;> rfl

lemma checkAndResetDaily_same (today : String) (s : AnalyticsState)
    (h : s.currentDayStats.date = today) : checkAndResetDaily today s = s := by
  unfold checkAndResetDaily
  rw [if_neg]
  simp [h]

lemma processPair_dayState (today : String) (done : List (Nat × Rat))
    (p : Nat × Rat) (h : done.length < 1000) :
    processPair today (dayState today done) p = dayState today (done ++ [p]) := by
  have hnoroll : checkAndResetDaily today (dayState today done)
      = dayState today done := checkAndResetDaily_same today _ rfl
  have hlen : ¬ ((dayState today done).requestLogs ++ [pendingLog]).length > MAX_LOGS := by
    simp [dayState, MAX_LOGS]
    omega
  have hget : ((dayState today done).requestLogs ++ [pendingLog]).get?
      (done.map filledLog).length = some pendingLog := by
    simp [dayState, List.get?_concat_length]
  have hs' : logRequest today "t" "ip" "/analyze" "POST" false none
      (dayState today done) =
      { requestLogs := done.map filledLog ++ [pendingLog]
        currentDayStats :=
          { date := today
            totalRequests := done.length + 1
            aiRequests := 0
            uniqueIPs := ["ip"]
            endpoints := [("/analyze", done.length + 1)]
            errors := (done.filter (fun q => 400 ≤ q.1)).length
            avgResponseTime := (done.map Prod.snd).sum / ((done.length : Nat) : Rat) }
        historicalStats := []
        totalResponseTime := (done.map Prod.snd).sum } := by
    have hlen' : ¬ (((dayState today done).requestLogs ++
        [({ timestamp := "t", ip := "ip", endpoint := "/analyze", method := "POST",
            useAI := false, userAgent := none } : RequestLog)]).length > MAX_LOGS) :=
      hlen
    simp only [logRequest]
    rw [hnoroll, if_neg hlen']
    cases done with
    | nil => simp [dayState, pendingLog, setAssoc]
    | cons d ds => simp [dayState, pendingLog, setAssoc]
  have hlr : logResponse ((done.map filledLog ++ [pendingLog]).length - 1) p.1 p.2
      { requestLogs := done.map filledLog ++ [pendingLog]
        currentDayStats :=
          { date := today
            totalRequests := done.length + 1
            aiRequests := 0
            uniqueIPs := ["ip"]
            endpoints := [("/analyze", done.length + 1)]
            errors := (done.filter (fun q => 400 ≤ q.1)).length
            avgResponseTime := (done.map Prod.snd).sum / ((done.length : Nat) : Rat) }
        historicalStats := []
        totalResponseTime := (done.map Prod.snd).sum }
      = dayState today (done ++ [p]) := by
    have hidx : (done.map filledLog ++ [pendingLog]).length - 1
        = (done.map filledLog).length := by simp
    rw [hidx]
    simp only [logResponse, List.get?_concat_length, set_concat_length]
    rw [dayState]
    have hfill : ({ pendingLog with status := some p.1, duration := some p.2 }
        : RequestLog) = filledLog p := rfl
    rw [hfill]
    simp only [List.map_append, List.filter_append, List.sum_append,
      List.length_append, List.length_map, List.map_cons, List.map_nil,
      List.sum_cons, List.sum_nil, List.filter_cons, List.filter_nil,
      List.length_cons, List.length_nil]
    split_ifs <;> simp_all <;> omega
  simp only [processPair]
  rw [hs']
  exact hlr

lemma processPairs_dayState (today : String) (pairs done : List (Nat × Rat))
    (h : done.length + pairs.length ≤ 1000) :
    processPairs today pairs (dayState today done)
      = dayState today (done ++ pairs) := by
  induction pairs generalizing done with
  | nil => simp [processPairs]
  | cons p pairs ih =>
    simp only [processPairs, List.foldl_cons]
    rw [show processPair today (dayState today done) p
        = dayState today (done ++ [p]) from
      processPair_dayState today done p (by simp at h; omega)]
    have := ih (done ++ [p]) (by simp at h ⊢; omega)
    simpa [processPairs] using this

lemma freshAnalyticsState_eq_dayState (today : String) :
    freshAnalyticsState today = dayState today [] := by
  simp [freshAnalyticsState, dayState, freshDailyStats]

-- ===========================================================================
-- Claim C9
-- ===========================================================================

/-- C9 (confirmed): on a request arrival with a changed calendar date, the
accumulator is archived into the historical list with its totals intact
(it becomes the last history entry, the oldest entry being evicted exactly
when the list held 30), a fresh all-zero accumulator is started for the new
date, and (on an unchanged date) nothing changes; the request log buffer
never exceeds 1000 entries and evicts the oldest when full. -/
theorem analytics_rollover_and_bounds :
    (∀ (today : String) (s : AnalyticsState), s.currentDayStats.date ≠ today →
      (checkAndResetDaily today s).currentDayStats = freshDailyStats today
      ∧ (checkAndResetDaily today s).totalResponseTime = 0
      ∧ (checkAndResetDaily today s).requestLogs = s.requestLogs
      ∧ (checkAndResetDaily today s).historicalStats.getLast?
          = some s.currentDayStats
      ∧ (s.historicalStats.length < 30 →
          (checkAndResetDaily today s).historicalStats
            = s.historicalStats ++ [s.currentDayStats])
      ∧ (30 ≤ s.historicalStats.length →
          (checkAndResetDaily today s).historicalStats
            = s.historicalStats.tail ++ [s.currentDayStats])
      ∧ (s.historicalStats.length ≤ 30 →
          (checkAndResetDaily today s).historicalStats.length ≤ 30))
    ∧ (∀ (today : String) (s : AnalyticsState),
        s.currentDayStats.date = today → checkAndResetDaily today s = s)
    ∧ (∀ (today t ip ep m : String) (ai : Bool) (ua : Option String)
        (s : AnalyticsState), s.requestLogs.length ≤ 1000 →
        (logRequest today t ip ep m ai ua s).requestLogs.length ≤ 1000)
    ∧ (∀ (today t ip ep m : String) (ai : Bool) (ua : Option String)
        (s : AnalyticsState), s.requestLogs.length = 1000 →
        (logRequest today t ip ep m ai ua s).requestLogs
          = s.requestLogs.tail ++
            [{ timestamp := t, ip := ip, endpoint := ep, method := m,
               useAI := ai, userAgent := ua }]) := by
  refine ⟨?_, ?_, ?_, ?_⟩
  · intro today s hdate
    have hroll : checkAndResetDaily today s =
        { s with
          historicalStats :=
            if (s.historicalStats ++ [s.currentDayStats]).length > 30 then
              (s.historicalStats ++ [s.currentDayStats]).tail
            else s.historicalStats ++ [s.currentDayStats]
          currentDayStats := freshDailyStats today
          totalResponseTime := 0 } := by
      unfold checkAndResetDaily
      rw [if_pos hdate]
    rw [hroll]
    refine ⟨rfl, rfl, rfl, ?_, ?_, ?_, ?_⟩
    · simp only []
      split_ifs with h30
      · rw [tail_append_singleton _ _ (by
          intro hnil
          simp [hnil] at h30)]
        simp
      · simp
    · intro hlt
      simp only []
      rw [if_neg (by simp; omega)]
    · intro hge
      simp only []
      rw [if_pos (by simp; omega)]
      exact tail_append_singleton _ _ (by
        intro hnil
        simp [hnil] at hge)
    · intro hle
      simp only []
      split_ifs with h30 <;> simp at h30 ⊢ <;> omega
  · exact checkAndResetDaily_same
  · intro today t ip ep m ai ua s hlen
    simp only [logRequest]
    have hlogs := checkAndResetDaily_requestLogs today s
    rw [hlogs]
    split_ifs with hgt <;> simp [MAX_LOGS] at hgt ⊢ <;> omega
  · intro today t ip ep m ai ua s hlen
    simp only [logRequest]
    have hlogs := checkAndResetDaily_requestLogs today s
    rw [hlogs]
    rw [if_pos (by simp [MAX_LOGS]; omega)]
    exact tail_append_singleton _ _ (by
      intro hnil
      rw [hnil] at hlen
      simp at hlen)

/-- Witness for C9: rolling from day d1 to day d2 archives the d1
accumulator as the last history entry and starts a zeroed accumulator, and
logging a request on a small buffer keeps it within the 1000-entry bound. -/
theorem analytics_rollover_witness :
    (checkAndResetDaily "d2" (freshAnalyticsState "d1")).currentDayStats
      = freshDailyStats "d2"
    ∧ (checkAndResetDaily "d2" (freshAnalyticsState "d1")).historicalStats.getLast?
      = some (freshAnalyticsState "d1").currentDayStats
    ∧ (logRequest "d1" "t" "ip" "/analyze" "POST" false none
        (freshAnalyticsState "d1")).requestLogs.length ≤ 1000 :=
  ⟨(analytics_rollover_and_bounds.1 "d2" (freshAnalyticsState "d1") (by decide)).1,
   (analytics_rollover_and_bounds.1 "d2" (freshAnalyticsState "d1") (by decide)).2.2.2.1,
   analytics_rollover_and_bounds.2.2.1 "d1" "t" "ip" "/analyze" "POST" false none
     (freshAnalyticsState "d1") (by decide)⟩

-- ===========================================================================
-- Claim C10
-- ===========================================================================

/-- C10 (confirmed): for a day of sequential request/response pairs starting
from a fresh accumulator, every log entry is back-filled with its status and
duration, the error counter counts exactly the responses with status ≥ 400
(each response increments it iff its status is ≥ 400), the running average
response time equals the simple cumulative mean of the durations over all
requests seen that day, and the average is reset to zero at day rollover. -/
theorem analytics_response_mean :
    (∀ (today : String) (pairs : List (Nat × Rat)), pairs.length ≤ 1000 →
      processPairs today pairs (freshAnalyticsState today) = dayState today pairs
      ∧ (processPairs today pairs (freshAnalyticsState today)).requestLogs
          = pairs.map filledLog
      ∧ (processPairs today pairs (freshAnalyticsState today)).currentDayStats.errors
          = (pairs.filter (fun p => 400 ≤ p.1)).length
      ∧ (processPairs today pairs
            (freshAnalyticsState today)).currentDayStats.avgResponseTime
          = (pairs.map Prod.snd).sum / ((pairs.length : Nat) : Rat))
    ∧ (∀ (idx status : Nat) (dur : Rat) (s : AnalyticsState), 400 ≤ status →
        (logResponse idx status dur s).currentDayStats.errors
          = s.currentDayStats.errors + 1)
    ∧ (∀ (idx status : Nat) (dur : Rat) (s : AnalyticsState), status < 400 →
        (logResponse idx status dur s).currentDayStats.errors
          = s.currentDayStats.errors)
    ∧ (∀ (today : String) (s : AnalyticsState), s.currentDayStats.date ≠ today →
        (checkAndResetDaily today s).currentDayStats.avgResponseTime = 0
        ∧ (checkAndResetDaily today s).totalResponseTime = 0) := by
  refine ⟨?_, ?_, ?_, ?_⟩
  · intro today pairs hlen
    have hclosed : processPairs today pairs (freshAnalyticsState today)
        = dayState today pairs := by
      rw [freshAnalyticsState_eq_dayState]
      have := processPairs_dayState today pairs [] (by simpa using hlen)
      simpa using this
    exact ⟨hclosed, by rw [hclosed]; rfl, by rw [hclosed]; rfl, by rw [hclosed]; rfl⟩
  · intro idx status dur s h
    simp [logResponse, h]
  · intro idx status dur s h
    simp [logResponse, Nat.not_le.mpr h]
  · intro today s hdate
    unfold checkAndResetDaily
    rw [if_pos hdate]
    exact ⟨rfl, rfl⟩

/-- Witness for C10 at a concrete two-request day: statuses 200 and 404 with
durations 50 and 100. -/
theorem analytics_response_mean_witness :
    processPairs "2026-10-12" [(200, mkRat 50 1), (404, mkRat 100 1)]
        (freshAnalyticsState "2026-10-12")
      = dayState "2026-10-12" [(200, mkRat 50 1), (404, mkRat 100 1)] :=
  (analytics_response_mean.1 "2026-10-12"
    [(200, mkRat 50 1), (404, mkRat 100 1)] (by decide)).1

end Nthcreation
